import Mathlib

/-!
Shallow embedding of the vote front-end service (`vote/app.py` and
`vote/tracing_setup.py`).

Modelling conventions:
* `random.getrandbits(k)` draws are explicit `Nat` arguments, constrained
  by `< 2 ^ k` where a claim quantifies over all possible draws.
* Redis is modelled as the explicit `votes` list state threaded through the
  handlers; `rpush` success/failure is an explicit boolean, a failing push
  appends nothing.
* Exceptions caught inside a handler are modelled by the handler returning a
  plain response; exceptions that escape a handler are modelled by `Except.error`.
* The ambient OpenTelemetry traceparent read from the propagator carrier is an
  `Option String` input; the fallback random generation outcome is an
  `Option (Nat × Nat)` input where `none` models the generator raising.
-/

/-- Embeds Python `hex(n)[2:]`: the lowercase hexadecimal rendering of `n`
with no `0x` prefix (`"0"` for `n = 0`). -/
def pyHex (n : Nat) : String :=
  (Nat.toDigits 16 n).asString

/-- Embeds a Python slice `s[:-1]`: the string with its final character removed
(empty result on a string of length ≤ 1). -/
def pyStripLast (s : String) : String :=
  ⟨s.data.dropLast⟩

/-- Embeds Python `str.zfill w`: left-pad with `'0'` up to width `w`
(unchanged when already at least `w` long). -/
def zfill (w : Nat) (s : String) : String :=
  (List.replicate (w - s.length) '0').asString ++ s

/-- The zero-span suffix that `get_current_traceparent` treats as a signal that
the ambient tracing backend failed to hook in (`tracing_setup.py` line 103). -/
def zeroSpanSuffix : String := "-0000000000000000-01"

/-- Embeds `tracing_setup.py` lines 106-108: the manually generated W3C
traceparent `f"00-{trace_id}-{span_id}-01"` where `trace_id` is the 128-bit
draw as 32 zero-filled hex digits and `span_id` the 64-bit draw as 16. -/
def fallbackToken (t s : Nat) : String :=
  "00-" ++ zfill 32 (pyHex t) ++ ("-" ++ zfill 16 (pyHex s) ++ "-01")

/-- Embeds the condition of `tracing_setup.py` line 103:
`if not w3c_header or w3c_header.endswith("-0000000000000000-01")`. -/
def needsFallback (ambient : Option String) : Bool :=
  match ambient with
  | none => true
  | some h => if h = "" then true else h.endsWith zeroSpanSuffix

/-- Embeds `TracingSetup.get_current_traceparent` (`tracing_setup.py`
lines 97-115): return the ambient header unless it is missing, empty, or
zero-span suffixed, in which case generate the fallback token; a raising
generator (`gen = none`) is caught and yields `none`. -/
def get_current_traceparent (ambient : Option String) (gen : Option (Nat × Nat)) :
    Option String :=
  if needsFallback ambient then
    match gen with
    | none => none
    | some (t, s) => some (fallbackToken t s)
  else ambient

/-- Embeds `app.py` lines 63-65 (and 106-108): reuse a non-empty cookie
verbatim, otherwise `voter_id = hex(random.getrandbits(64))[2:-1]`, i.e. the
hex rendering with the `0x` prefix and the final character removed. -/
def resolveVoterId (cookie : Option String) (draw : Nat) : String :=
  match cookie with
  | some c => if c = "" then pyStripLast (pyHex draw) else c
  | none => pyStripLast (pyHex draw)

/-- The JSON payload pushed onto the `votes` list (`app.py` lines 85-89). -/
structure VoteRecord where
  voter_id : String
  vote : String
  traceparent : Option String
deriving DecidableEq, Repr

/-- Response of the `/api/vote` handler: HTTP status, the JSON body fields,
and the `voter_id` cookie set on the response (if any). -/
structure ApiResponse where
  status : Nat
  success : Bool
  message : Option String
  error : Option String
  cookie : Option String
deriving DecidableEq, Repr

/-- The generic error response of `app.py` line 102:
`jsonify(success=False, error="Internal Server Error"), 500` — note it sets
no cookie. -/
def apiErrorResponse : ApiResponse :=
  { status := 500, success := false, message := none,
    error := some "Internal Server Error", cookie := none }

/-- Embeds `cast_vote_api` (`app.py` lines 61-102). `body` is `some v` when
`request.json['vote']` parses to `v`, `none` when parsing raises; `pushOk`
models whether `redis.rpush` succeeds. All exceptions are caught by the
handler's `except` clause and produce `apiErrorResponse`. -/
def cast_vote_api (cookie : Option String) (draw : Nat) (body : Option String)
    (ambient : Option String) (gen : Option (Nat × Nat)) (pushOk : Bool)
    (queue : List VoteRecord) : ApiResponse × List VoteRecord :=
  let voter_id := resolveVoterId cookie draw
  match body with
  | none => (apiErrorResponse, queue)
  | some vote =>
    let traceparent := get_current_traceparent ambient gen
    if pushOk then
      ({ status := 200, success := true, message := some "Vote cast",
         error := none, cookie := some voter_id },
       queue ++ [⟨voter_id, vote, traceparent⟩])
    else
      (apiErrorResponse, queue)

/-- Embeds `health` (`app.py` lines 51-59): one `redis.ping()` probe, `"OK"`
on success, `"Unhealthy"`/500 on any caught exception. -/
def health (ping : Except String Unit) : String × Nat :=
  match ping with
  | .ok _ => ("OK", 200)
  | .error _ => ("Unhealthy", 500)

/-- HTTP method of a request to the root route. -/
inductive Method where
  | GET
  | POST
deriving DecidableEq, Repr

/-- Response of the root route handler: status, the `vote` template argument,
and the cookie set on the response. -/
structure PageResponse where
  status : Nat
  vote : Option String
  cookie : Option String
deriving DecidableEq, Repr

/-- Embeds `hello` (`app.py` lines 104-144). The POST branch has no
`try`/`except`: a missing `vote` form field (`request.form['vote']`) or a
failing `rpush` raises out of the handler, modelled as `Except.error`. -/
def hello (method : Method) (cookie : Option String) (draw : Nat)
    (form : Option String) (ambient : Option String) (gen : Option (Nat × Nat))
    (pushOk : Bool) (queue : List VoteRecord) :
    Except String (PageResponse × List VoteRecord) :=
  let voter_id := resolveVoterId cookie draw
  match method with
  | .GET => .ok ({ status := 200, vote := none, cookie := some voter_id }, queue)
  | .POST =>
    match form with
    | none => .error "BadRequestKeyError"
    | some vote =>
      let traceparent := get_current_traceparent ambient gen
      if pushOk then
        .ok ({ status := 200, vote := some vote, cookie := some voter_id },
             queue ++ [⟨voter_id, vote, traceparent⟩])
      else
        .error "ConnectionError"

/-- A lowercase hex digit, as in the pattern `[0-9a-f]`. -/
def isHexDigit (c : Char) : Bool :=
  (('0' ≤ c) && (c ≤ '9')) || (('a' ≤ c) && (c ≤ 'f'))

/-- All characters of the string are lowercase hex digits. -/
def isHexStr (s : String) : Bool := s.data.all isHexDigit

/-- The string matches the fixed pattern `00-[0-9a-f]{32}-[0-9a-f]{16}-01`. -/
def matchesTraceparentPattern (x : String) : Prop :=
  ∃ T P : List Char,
    x.data = "00-".data ++ T ++ "-".data ++ P ++ "-01".data ∧
    T.length = 32 ∧ T.all isHexDigit = true ∧
    P.length = 16 ∧ P.all isHexDigit = true

example : pyHex 255 = "ff" := by decide
example : pyHex 0 = "0" := by decide
example : pyStripLast (pyHex 5) = "" := by decide
example : zfill 16 (pyHex 0) = "0000000000000000" := by decide

theorem data_append (a b : String) : (a ++ b).data = a.data ++ b.data := rfl

theorem asString_data (l : List Char) : l.asString.data = l := rfl

theorem length_data (s : String) : s.data.length = s.length := rfl

theorem toDigitsCore_length_init (fuel : Nat) :
    ∀ (n : Nat) (ds : List Char), ds.length ≤ (Nat.toDigitsCore 16 fuel n ds).length := by
  induction fuel with
  | zero =>
    intro n ds
    simp [Nat.toDigitsCore]
  | succ fuel ih =>
    intro n ds
    simp only [Nat.toDigitsCore]
    split
    · simp
    · calc ds.length ≤ (Nat.digitChar (n % 16) :: ds).length := by simp
        _ ≤ _ := ih (n / 16) (Nat.digitChar (n % 16) :: ds)

theorem toDigitsCore_length_succ (fuel n : Nat) (ds : List Char) (hf : 1 ≤ fuel) :
    ds.length + 1 ≤ (Nat.toDigitsCore 16 fuel n ds).length := by
  obtain ⟨f, rfl⟩ : ∃ f, fuel = f + 1 := ⟨fuel - 1, by omega⟩
  simp only [Nat.toDigitsCore]
  split
  · simp
  · have := toDigitsCore_length_init f (n / 16) (Nat.digitChar (n % 16) :: ds)
    simp only [List.length_cons] at this
    omega

theorem toDigitsCore_length_le (fuel : Nat) :
    ∀ (k n : Nat) (ds : List Char), 1 ≤ k → n < 16 ^ k →
      (Nat.toDigitsCore 16 fuel n ds).length ≤ ds.length + k := by
  induction fuel with
  | zero =>
    intro k n ds hk _
    simp only [Nat.toDigitsCore]
    omega
  | succ fuel ih =>
    intro k n ds hk hn
    simp only [Nat.toDigitsCore]
    split
    · simp only [List.length_cons]
      omega
    · rename_i h
      have h16 : 16 ≤ n := by
        by_contra hlt
        exact h (Nat.div_eq_of_lt (by omega))
      have hk2 : 2 ≤ k := by
        by_contra hlt
        have hk1 : k = 1 := by omega
        rw [hk1, pow_one] at hn
        omega
      have hn' : n / 16 < 16 ^ (k - 1) := by
        apply Nat.div_lt_of_lt_mul
        calc n < 16 ^ k := hn
          _ = 16 * 16 ^ (k - 1) := by
            rw [← pow_succ']
            congr 1
            omega
      have := ih (k - 1) (n / 16) (Nat.digitChar (n % 16) :: ds) (by omega) hn'
      simp only [List.length_cons] at this
      omega

theorem digitChar_hex : ∀ m : Nat, m < 16 → isHexDigit (Nat.digitChar m) = true := by
  decide

theorem toDigitsCore_all_hex (fuel : Nat) :
    ∀ (n : Nat) (ds : List Char), ds.all isHexDigit = true →
      (Nat.toDigitsCore 16 fuel n ds).all isHexDigit = true := by
  induction fuel with
  | zero =>
    intro n ds h
    simpa [Nat.toDigitsCore] using h
  | succ fuel ih =>
    intro n ds h
    have hd : isHexDigit (Nat.digitChar (n % 16)) = true :=
      digitChar_hex _ (Nat.mod_lt _ (by omega))
    simp only [Nat.toDigitsCore]
    split
    · simp [List.all_cons, hd, h]
    · exact ih (n / 16) _ (by simp [List.all_cons, hd, h])

theorem pyHex_data_all_hex (n : Nat) : (pyHex n).data.all isHexDigit = true :=
  toDigitsCore_all_hex (n + 1) n [] rfl

theorem pyHex_length_pos (n : Nat) : 1 ≤ (pyHex n).length := by
  have := toDigitsCore_length_succ (n + 1) n [] (by omega)
  simpa [pyHex, Nat.toDigits, ← length_data, asString_data] using this

theorem pyHex_length_le (k n : Nat) (hk : 1 ≤ k) (hn : n < 16 ^ k) :
    (pyHex n).length ≤ k := by
  have := toDigitsCore_length_le (n + 1) k n [] hk hn
  simpa [pyHex, Nat.toDigits, ← length_data, asString_data] using this

theorem pyHex_length_two (n : Nat) (hn : 16 ≤ n) : 2 ≤ (pyHex n).length := by
  have hdiv : ¬ n / 16 = 0 := by
    have h1 : 1 ≤ n / 16 := (Nat.one_le_div_iff (by omega)).mpr hn
    omega
  have h2 : 2 ≤ (Nat.toDigitsCore 16 (n + 1) n []).length := by
    simp only [Nat.toDigitsCore]
    split
    · exact absurd (by assumption) hdiv
    · have := toDigitsCore_length_succ n (n / 16) [Nat.digitChar (n % 16)] (by omega)
      simpa using this
  simpa [pyHex, Nat.toDigits, ← length_data, asString_data] using h2

theorem replicate_zero_all_hex (n : Nat) :
    (List.replicate n '0').all isHexDigit = true := by
  simp only [List.all_eq_true]
  intro x hx
  rw [List.eq_of_mem_replicate hx]
  decide

theorem zfill_data (w : Nat) (s : String) :
    (zfill w s).data = List.replicate (w - s.length) '0' ++ s.data := rfl

theorem zfill_length (w : Nat) (s : String) (h : s.length ≤ w) :
    (zfill w s).length = w := by
  have hd : (zfill w s).length = (w - s.length) + s.length := by
    rw [← length_data, zfill_data]
    simp [length_data]
  omega

theorem zfill_all_hex (w : Nat) (s : String) (h : s.data.all isHexDigit = true) :
    (zfill w s).data.all isHexDigit = true := by
  rw [zfill_data, List.all_append, replicate_zero_all_hex, h]
  rfl

theorem fallbackToken_matches (t s : Nat) (ht : t < 2 ^ 128) (hs : s < 2 ^ 64) :
    matchesTraceparentPattern (fallbackToken t s) := by
  have ht' : t < 16 ^ 32 := by
    rw [show (16 : Nat) ^ 32 = 2 ^ 128 by norm_num]
    exact ht
  have hs' : s < 16 ^ 16 := by
    rw [show (16 : Nat) ^ 16 = 2 ^ 64 by norm_num]
    exact hs
  refine ⟨(zfill 32 (pyHex t)).data, (zfill 16 (pyHex s)).data, ?_, ?_, ?_, ?_, ?_⟩
  · simp only [fallbackToken, data_append, List.append_assoc]
  · rw [length_data]
    exact zfill_length 32 _ (pyHex_length_le 32 t (by omega) ht')
  · exact zfill_all_hex 32 _ (pyHex_data_all_hex t)
  · rw [length_data]
    exact zfill_length 16 _ (pyHex_length_le 16 s (by omega) hs')
  · exact zfill_all_hex 16 _ (pyHex_data_all_hex s)

theorem length_pos_ne_empty (s : String) (h : 1 ≤ s.length) : s ≠ "" := by
  intro he
  rw [he] at h
  exact absurd h (by decide)

/-- C1: every POST to /api/vote whose JSON body contains a vote, when the
queue push succeeds, returns 200 with success true and message "Vote cast",
and appends exactly one record — with the submitted vote, the resolved voter
identity, and the (possibly null) trace-context token — to the tail of the
votes queue. -/
theorem c1_api_vote_success (cookie : Option String) (draw : Nat) (vote : String)
    (ambient : Option String) (gen : Option (Nat × Nat)) (queue : List VoteRecord) :
    (cast_vote_api cookie draw (some vote) ambient gen true queue).1 =
      { status := 200, success := true, message := some "Vote cast",
        error := none, cookie := some (resolveVoterId cookie draw) } ∧
    (cast_vote_api cookie draw (some vote) ambient gen true queue).2 =
      queue ++ [⟨resolveVoterId cookie draw, vote, get_current_traceparent ambient gen⟩] :=
  ⟨rfl, rfl⟩

/-- C2: every POST to /api/vote whose body fails to parse or whose queue push
fails returns 500 with exactly the generic body (success false, error
"Internal Server Error", no message), and leaves the queue unchanged. -/
theorem c2_api_vote_failure (cookie : Option String) (draw : Nat) (body : Option String)
    (ambient : Option String) (gen : Option (Nat × Nat)) (pushOk : Bool)
    (queue : List VoteRecord) (h : body = none ∨ pushOk = false) :
    (cast_vote_api cookie draw body ambient gen pushOk queue).1 =
      { status := 500, success := false, message := none,
        error := some "Internal Server Error", cookie := none } ∧
    (cast_vote_api cookie draw body ambient gen pushOk queue).2 = queue := by
  rcases h with h | h
  · subst h
    exact ⟨rfl, rfl⟩
  · subst h
    cases body with
    | none => exact ⟨rfl, rfl⟩
    | some v => exact ⟨rfl, rfl⟩

theorem c2_api_vote_failure_witness :
    ((none : Option String) = none ∨ true = false) ∧
    ((cast_vote_api none 0 none none none true []).1 =
      { status := 500, success := false, message := none,
        error := some "Internal Server Error", cookie := none } ∧
     (cast_vote_api none 0 none none none true []).2 = []) :=
  ⟨Or.inl rfl, c2_api_vote_failure none 0 none none none true [] (Or.inl rfl)⟩

/-- C3 counterexample: a POST to /api/vote with no cookie and an unparsable
body returns a failure response that sets no voter_id cookie, refuting the
claim that the identity cookie is set on every request including failure
responses. -/
theorem c3_counterexample :
    (cast_vote_api none 5 none none none true []).1.status = 500 ∧
    (cast_vote_api none 5 none none none true []).1.cookie = none :=
  ⟨rfl, rfl⟩

/-- C3 amended: the response sets the identity cookie to the resolved voter
identity on every root-route response and on every successful /api/vote
response (echoing a non-empty request cookie verbatim), but the /api/vote
failure response sets no cookie. -/
theorem c3_amended_cookie_setting :
    (∀ cookie draw vote ambient gen queue,
      (cast_vote_api cookie draw (some vote) ambient gen true queue).1.cookie =
        some (resolveVoterId cookie draw)) ∧
    (∀ cookie draw body ambient gen pushOk queue,
      (cast_vote_api cookie draw body ambient gen pushOk queue).1.status = 500 →
      (cast_vote_api cookie draw body ambient gen pushOk queue).1.cookie = none) ∧
    (∀ method cookie draw form ambient gen pushOk queue resp queue2,
      hello method cookie draw form ambient gen pushOk queue = .ok (resp, queue2) →
      resp.cookie = some (resolveVoterId cookie draw)) ∧
    (∀ c draw, c ≠ "" → resolveVoterId (some c) draw = c) := by
  refine ⟨?_, ?_, ?_, ?_⟩
  · intro cookie draw vote ambient gen queue
    rfl
  · intro cookie draw body ambient gen pushOk queue h
    cases body with
    | none => rfl
    | some v =>
      cases pushOk with
      | false => rfl
      | true => simp [cast_vote_api] at h
  · intro method cookie draw form ambient gen pushOk queue resp queue2 h
    cases method with
    | GET =>
      simp only [hello, Except.ok.injEq, Prod.mk.injEq] at h
      rw [← h.1]
    | POST =>
      cases form with
      | none => simp [hello] at h
      | some v =>
        cases pushOk with
        | false => simp [hello] at h
        | true =>
          simp only [hello, if_true, Except.ok.injEq, Prod.mk.injEq] at h
          rw [← h.1]
  · intro c draw hc
    simp [resolveVoterId, hc]

theorem c3_amended_cookie_setting_witness :
    ("abc" : String) ≠ "" ∧ resolveVoterId (some "abc") 0 = "abc" :=
  ⟨by decide, c3_amended_cookie_setting.2.2.2 "abc" 0 (by decide)⟩

/-- C4 counterexample: with trace-id draw 1 and span-id draw 0 the fallback
path produces exactly the zero-span token, refuting that a produced token is
never all-zero in its span-id field and never ends in -0000000000000000-01. -/
theorem c4_counterexample :
    get_current_traceparent none (some (1, 0)) =
      some "00-00000000000000000000000000000001-0000000000000000-01" ∧
    "00-00000000000000000000000000000001-0000000000000000-01".data =
      "00-00000000000000000000000000000001".data ++ zeroSpanSuffix.data := by
  refine ⟨by decide, by decide⟩

/-- C4 amended: every token produced by the random fallback path matches the
fixed pattern 00-[0-9a-f]{32}-[0-9a-f]{16}-01, and a token returned from the
ambient path is non-empty and does not end in the zero-span suffix; the id
fields of a fallback token are however not guaranteed nonzero: a zero span-id
draw yields the token whose span-id field is all zeros. -/
theorem c4_amended_token_shape :
    (∀ ambient t s, t < 2 ^ 128 → s < 2 ^ 64 → needsFallback ambient = true →
        get_current_traceparent ambient (some (t, s)) = some (fallbackToken t s) ∧
        matchesTraceparentPattern (fallbackToken t s)) ∧
    (∀ ambient gen tok, needsFallback ambient = false →
        get_current_traceparent ambient gen = some tok →
        tok ≠ "" ∧ tok.endsWith zeroSpanSuffix = false) ∧
    (∀ t, (fallbackToken t 0).data =
        ("00-" ++ zfill 32 (pyHex t)).data ++ zeroSpanSuffix.data) := by
  refine ⟨?_, ?_, ?_⟩
  · intro ambient t s ht hs hf
    refine ⟨?_, fallbackToken_matches t s ht hs⟩
    simp [get_current_traceparent, hf]
  · intro ambient gen tok hf h
    cases ambient with
    | none => simp [needsFallback] at hf
    | some a =>
      by_cases ha : a = ""
      · subst ha
        simp [needsFallback] at hf
      · have hend : a.endsWith zeroSpanSuffix = false := by
          simpa [needsFallback, ha] using hf
        have htok : a = tok := by
          simpa [get_current_traceparent, needsFallback, ha, hend] using h
        rw [← htok]
        exact ⟨ha, hend⟩
  · intro t
    have h0 : ("-" : String).data ++ ((zfill 16 (pyHex 0)).data ++ "-01".data) =
        zeroSpanSuffix.data := by decide
    simp only [fallbackToken, data_append, List.append_assoc, h0]

theorem c4_amended_token_shape_witness :
    (1 : Nat) < 2 ^ 128 ∧ (0 : Nat) < 2 ^ 64 ∧ needsFallback none = true ∧
    (get_current_traceparent none (some (1, 0)) = some (fallbackToken 1 0) ∧
     matchesTraceparentPattern (fallbackToken 1 0)) :=
  ⟨by decide, by decide, rfl,
   c4_amended_token_shape.1 none 1 0 (by decide) (by decide) rfl⟩

/-- C5 counterexample: for the 64-bit draw 255 a freshly generated identity is
"f", not the hex rendering "ff" of the draw, and identities generated from
draws 255 and 4096 have different lengths, refuting fixed length. -/
theorem c5_counterexample :
    resolveVoterId none 255 ≠ pyHex 255 ∧
    (resolveVoterId none 255).length ≠ (resolveVoterId none 4096).length := by
  refine ⟨by decide, by decide⟩

/-- C5 amended: a freshly generated voter identity is the lowercase hex
rendering of the 64-bit draw with the 0x prefix and the final character
removed: a (possibly empty) lowercase hex string whose length is one less than
the rendering's, at most 15 — not of fixed length. -/
theorem c5_amended_fresh_identity (r : Nat) (hr : r < 2 ^ 64) :
    resolveVoterId none r = pyStripLast (pyHex r) ∧
    isHexStr (resolveVoterId none r) = true ∧
    (resolveVoterId none r).length = (pyHex r).length - 1 ∧
    (resolveVoterId none r).length ≤ 15 := by
  have hr16 : r < 16 ^ 16 := by
    rw [show (16 : Nat) ^ 16 = 2 ^ 64 by norm_num]
    exact hr
  have hlen : (pyStripLast (pyHex r)).length = (pyHex r).length - 1 := by
    rw [← length_data]
    show (pyHex r).data.dropLast.length = (pyHex r).length - 1
    rw [List.length_dropLast, length_data]
  have hhex : isHexStr (pyStripLast (pyHex r)) = true := by
    have hall := pyHex_data_all_hex r
    show (pyHex r).data.dropLast.all isHexDigit = true
    simp only [List.all_eq_true] at hall ⊢
    intro x hx
    exact hall x (List.dropLast_subset _ hx)
  have hle : (pyHex r).length ≤ 16 := pyHex_length_le 16 r (by omega) hr16
  refine ⟨rfl, hhex, hlen, ?_⟩
  show (pyStripLast (pyHex r)).length ≤ 15
  omega

theorem c5_amended_fresh_identity_witness :
    (255 : Nat) < 2 ^ 64 ∧
    (resolveVoterId none 255 = pyStripLast (pyHex 255) ∧
     isHexStr (resolveVoterId none 255) = true ∧
     (resolveVoterId none 255).length = (pyHex 255).length - 1 ∧
     (resolveVoterId none 255).length ≤ 15) :=
  ⟨by decide, c5_amended_fresh_identity 255 (by decide)⟩

/-- C6 counterexample: with the 64-bit draw 5 the freshly generated identity
is the empty string, so the enqueued vote record has an empty voter_id. -/
theorem c6_counterexample :
    (cast_vote_api none 5 (some "a") none none true []).2 =
      [⟨"", "a", none⟩] := by decide

/-- C6 amended: the enqueued record's voter_id is non-empty whenever the
request carried a non-empty cookie or the 64-bit draw is at least 16; for
draws below 16 the generated identity — and hence the enqueued voter_id — is
the empty string. -/
theorem c6_amended_voter_id (cookie : Option String) (r : Nat) (vote : String)
    (ambient : Option String) (gen : Option (Nat × Nat)) (queue : List VoteRecord)
    (h : (∃ c, cookie = some c ∧ c ≠ "") ∨ 16 ≤ r) :
    (cast_vote_api cookie r (some vote) ambient gen true queue).2 =
      queue ++ [⟨resolveVoterId cookie r, vote, get_current_traceparent ambient gen⟩] ∧
    resolveVoterId cookie r ≠ "" ∧
    (∀ r2 < 16, resolveVoterId none r2 = "") := by
  have hsmall : ∀ r2 < 16, resolveVoterId none r2 = "" := by decide
  refine ⟨rfl, ?_, hsmall⟩
  have hgen : 16 ≤ r → pyStripLast (pyHex r) ≠ "" := by
    intro h16
    apply length_pos_ne_empty
    have h2 := pyHex_length_two r h16
    have : (pyStripLast (pyHex r)).length = (pyHex r).length - 1 := by
      rw [← length_data]
      show (pyHex r).data.dropLast.length = (pyHex r).length - 1
      rw [List.length_dropLast, length_data]
    omega
  rcases h with ⟨c, hc, hne⟩ | h16
  · subst hc
    simp [resolveVoterId, hne]
  · cases cookie with
    | none => exact hgen h16
    | some c =>
      by_cases hc : c = ""
      · subst hc
        simp [resolveVoterId, hgen h16]
      · simp [resolveVoterId, hc]

theorem c6_amended_voter_id_witness :
    (16 : Nat) ≤ 31 ∧
    ((cast_vote_api none 31 (some "a") none none true []).2 =
      [] ++ [⟨resolveVoterId none 31, "a", get_current_traceparent none none⟩] ∧
     resolveVoterId none 31 ≠ "" ∧
     (∀ r2 < 16, resolveVoterId none r2 = "")) :=
  ⟨by decide, c6_amended_voter_id none 31 "a" none none [] (Or.inr (by decide))⟩

/-- C7: get_current_traceparent returns none exactly when the fallback path is
taken and the random generator raises (the failure is caught, not raised), and
a vote submission with a null trace context still succeeds, enqueuing one
record whose traceparent field is null. -/
theorem c7_null_trace_context :
    (∀ ambient gen, get_current_traceparent ambient gen = none ↔
        needsFallback ambient = true ∧ gen = none) ∧
    (∀ cookie draw vote ambient gen queue,
        get_current_traceparent ambient gen = none →
        (cast_vote_api cookie draw (some vote) ambient gen true queue).1.status = 200 ∧
        (cast_vote_api cookie draw (some vote) ambient gen true queue).2 =
          queue ++ [⟨resolveVoterId cookie draw, vote, none⟩]) := by
  constructor
  · intro ambient gen
    cases hnf : needsFallback ambient with
    | true =>
      cases gen with
      | none => simp [get_current_traceparent, hnf]
      | some p =>
        cases p
        simp [get_current_traceparent, hnf]
    | false =>
      cases ambient with
      | none => simp [needsFallback] at hnf
      | some a => simp [get_current_traceparent, hnf]
  · intro cookie draw vote ambient gen queue h
    refine ⟨rfl, ?_⟩
    simp [cast_vote_api, h]

theorem c7_null_trace_context_witness :
    get_current_traceparent none none = none ∧
    ((cast_vote_api none 0 (some "a") none none true []).1.status = 200 ∧
     (cast_vote_api none 0 (some "a") none none true []).2 =
       [] ++ [⟨resolveVoterId none 0, "a", none⟩]) :=
  ⟨rfl, c7_null_trace_context.2 none 0 "a" none none [] rfl⟩

/-- C8 counterexample: a POST to the root route whose form lacks the vote
field raises out of the hello handler (BadRequestKeyError) instead of being
caught, refuting that every failure is contained at the handler boundary. -/
theorem c8_counterexample :
    hello .POST none 0 none none none true [] = .error "BadRequestKeyError" := rfl

/-- C8 amended: /health and /api/vote contain every modelled failure inside
the handler and expose only generic error text, but the root route does not:
on POST, a missing vote form field or a failing queue push escapes the hello
handler as an uncaught exception. -/
theorem c8_amended_containment :
    (∀ ping, health ping = ("OK", 200) ∨ health ping = ("Unhealthy", 500)) ∧
    (∀ cookie draw body ambient gen pushOk queue,
        (cast_vote_api cookie draw body ambient gen pushOk queue).1.status = 200 ∨
        (cast_vote_api cookie draw body ambient gen pushOk queue).1 =
          apiErrorResponse) ∧
    (∀ cookie draw form ambient gen pushOk queue, ∃ resp,
        hello .GET cookie draw form ambient gen pushOk queue = .ok (resp, queue)) ∧
    (∀ cookie draw ambient gen pushOk queue,
        hello .POST cookie draw none ambient gen pushOk queue =
          .error "BadRequestKeyError") ∧
    (∀ cookie draw vote ambient gen queue,
        hello .POST cookie draw (some vote) ambient gen false queue =
          .error "ConnectionError") := by
  refine ⟨?_, ?_, ?_, ?_, ?_⟩
  · intro ping
    cases ping with
    | ok u => exact Or.inl rfl
    | error e => exact Or.inr rfl
  · intro cookie draw body ambient gen pushOk queue
    cases body with
    | none => exact Or.inr rfl
    | some v =>
      cases pushOk with
      | true => exact Or.inl rfl
      | false => exact Or.inr rfl
  · intro cookie draw form ambient gen pushOk queue
    exact ⟨_, rfl⟩
  · intro cookie draw ambient gen pushOk queue
    rfl
  · intro cookie draw vote ambient gen queue
    rfl

/-- C9: GET /health returns 200 "OK" exactly when the single redis ping probe
succeeds, and 500 "Unhealthy" when the ping raises any error; the handler
consumes exactly one probe outcome (no retry). -/
theorem c9_health_probe (ping : Except String Unit) :
    (health ping = ("OK", 200) ↔ ping = .ok ()) ∧
    (∀ e, ping = .error e → health ping = ("Unhealthy", 500)) := by
  cases ping with
  | ok u =>
    cases u
    exact ⟨⟨fun _ => rfl, fun _ => rfl⟩, fun e he => Except.noConfusion he⟩
  | error e =>
    refine ⟨⟨fun h => ?_, fun h => Except.noConfusion h⟩, fun e2 he => rfl⟩
    have h2 : ("Unhealthy", (500 : Nat)) = ("OK", 200) := h
    exact absurd h2 (by decide)

/-- C9 witness. -/
theorem c9_health_probe_witness :
    (Except.error "timeout" : Except String Unit) = .error "timeout" ∧
    health (.error "timeout") = ("Unhealthy", 500) :=
  ⟨rfl, (c9_health_probe (.error "timeout")).2 "timeout" rfl⟩

/-- C10: the root route also accepts POST: with a vote form field present and
a successful push, hello appends exactly one record — with the resolved voter
identity, the form vote value, and the trace-context token — to the votes
queue, and returns the rendered page setting the identity cookie. -/
theorem c10_root_post (cookie : Option String) (draw : Nat) (vote : String)
    (ambient : Option String) (gen : Option (Nat × Nat)) (queue : List VoteRecord) :
    hello .POST cookie draw (some vote) ambient gen true queue =
      .ok ({ status := 200, vote := some vote,
             cookie := some (resolveVoterId cookie draw) },
           queue ++ [⟨resolveVoterId cookie draw, vote,
                      get_current_traceparent ambient gen⟩]) := rfl
